import Mathlib

/-!
Formal model of the `magic` Rust crate (bindings for libmagic), from
`src/lib.rs`.

The crate is a thin safety layer around a native detection engine.  The
native engine itself (the `magic_sys`/`ffi` extern crate, plus `errno`) is
outside the crate; we model it as an oracle `Ffi`: a structure of response
functions, one per native entry point the crate calls.  Each wrapper
method of `Cookie` is embedded as a pure Lean function that takes the
oracle and returns the Rust result together with the ordered list of
native calls the method performed (a `List NativeCall` trace).  The trace
makes statements such as "passes exactly the bitmask f OR ERROR to the
native allocation call", "returns before invoking the native call" and
"releases the native handle exactly once" directly expressible.

Rust `Drop` points are translated explicitly: in `Cookie::new` (and
`new_from_buffers`) the partially constructed cookie is dropped when the
load step fails, which runs `magic_close`; on success the cookie is moved
to the caller and not dropped.  The embedding emits the corresponding
`magicClose` trace event exactly at those drop points.
-/

namespace Magic

/-! ## Configuration flags (module `flags`, `bitflags! CookieFlags`)

The flag constants from `src/lib.rs` lines 61-160, with their exact bit
values, as natural numbers (the Rust representation is a `c_int` bitmask;
every constant is nonnegative and fits easily). -/

namespace CookieFlags

/-- No special handling -/
def NONE : Nat := 0x000000

/-- Print debugging messages to stderr -/
def DEBUG : Nat := 0x000001

/-- If the file queried is a symlink, follow it -/
def SYMLINK : Nat := 0x000002

/-- If the file is compressed, unpack it and look at the contents -/
def COMPRESS : Nat := 0x000004

/-- If the file is a block or character special device, open and inspect it -/
def DEVICES : Nat := 0x000008

/-- Return a MIME type string, instead of a textual description -/
def MIME_TYPE : Nat := 0x000010

/-- Return all matches, not just the first -/
def CONTINUE : Nat := 0x000020

/-- Check the magic database for consistency and print warnings to stderr -/
def CHECK : Nat := 0x000040

/-- Attempt to preserve the access time of files analyzed -/
def PRESERVE_ATIME : Nat := 0x000080

/-- Do not translate unprintable characters to an octal representation -/
def RAW : Nat := 0x000100

/-- Treat operating system errors as real errors instead of printing them
in the magic buffer -/
def ERROR : Nat := 0x000200

/-- Return a MIME encoding, instead of a textual description -/
def MIME_ENCODING : Nat := 0x000400

/-- Return the Apple creator and type -/
def APPLE : Nat := 0x000800

/-- Return a slash-separated list of extensions -/
def EXTENSION : Nat := 0x1000000

/-- Check inside compressed files but do not report compression -/
def COMPRESS_TRANSP : Nat := 0x2000000

/-- Do not look inside compressed files -/
def NO_CHECK_COMPRESS : Nat := 0x001000

/-- Do not examine tar files -/
def NO_CHECK_TAR : Nat := 0x002000

/-- Do not consult magic files -/
def NO_CHECK_SOFT : Nat := 0x004000

/-- Check for EMX application type (only on EMX) -/
def NO_CHECK_APPTYPE : Nat := 0x008000

/-- Do not print ELF details -/
def NO_CHECK_ELF : Nat := 0x010000

/-- Do not check for various types of text files -/
def NO_CHECK_TEXT : Nat := 0x020000

/-- Do not get extra information on MS Composite Document Files -/
def NO_CHECK_CDF : Nat := 0x040000

/-- Do not look for known tokens inside ascii files -/
def NO_CHECK_TOKENS : Nat := 0x100000

/-- Do not check text encodings -/
def NO_CHECK_ENCODING : Nat := 0x200000

/-- Do not check for JSON files -/
def NO_CHECK_JSON : Nat := 0x0400000

/-- A shorthand for MIME_TYPE OR MIME_ENCODING (defined in the source as
the union of the two primitive bit sets) -/
def MIME : Nat := MIME_TYPE ||| MIME_ENCODING

/-- No description: return the extension, MIME type/encoding and Apple
creator/type (union of EXTENSION, MIME and APPLE in the source) -/
def NODESC : Nat := EXTENSION ||| MIME ||| APPLE

/-- No built-in tests; only consult the magic file (union of the nine
listed NO_CHECK bit sets in the source; NO_CHECK_SOFT is not among them) -/
def NO_CHECK_BUILTIN : Nat :=
  NO_CHECK_COMPRESS ||| NO_CHECK_TAR ||| NO_CHECK_APPTYPE ||| NO_CHECK_ELF
    ||| NO_CHECK_TEXT ||| NO_CHECK_CDF ||| NO_CHECK_TOKENS
    ||| NO_CHECK_ENCODING ||| NO_CHECK_JSON

/-- Membership test of bitflags: `a.contains(b)` holds when every bit of
`b` is set in `a`. -/
def contains (a b : Nat) : Bool := a &&& b == b

end CookieFlags

/-! ## Error type and handle -/

/-- The error type used in the crate (`MagicError`), carrying a
human-readable description string. -/
structure MagicError where
  desc : String
deriving DecidableEq, Repr

/-- `Cookie` wraps the native engine instance pointer (`*const ffi::Magic`);
pointers are modelled as natural numbers, with `Option` marking null at
the call sites that can return null. -/
structure Cookie where
  cookie : Nat
deriving DecidableEq, Repr

/-- One native call performed by the wrapper, with the argument values the
wrapper passed.  Pointer-and-length buffer arguments are modelled as the
byte lists they point to; the `dbs` argument of the database operations is
`Option String` with `none` standing for the null pointer. -/
inductive NativeCall where
  | magicOpen (flags : Nat)
  | magicClose (cookie : Nat)
  | magicErrorCall (cookie : Nat)
  | magicFile (cookie : Nat) (filename : String)
  | magicBuffer (cookie : Nat) (buf : List Nat)
  | magicSetflags (cookie : Nat) (flags : Nat)
  | magicCheck (cookie : Nat) (dbs : Option String)
  | magicCompile (cookie : Nat) (dbs : Option String)
  | magicList (cookie : Nat) (dbs : Option String)
  | magicLoad (cookie : Nat) (dbs : Option String)
  | magicLoadBuffers (cookie : Nat) (buffers : List (List Nat))
deriving DecidableEq, Repr

/-- The native engine and process-error oracle: the response each native
entry point would give, as a function of the arguments the wrapper passes.
`magic_open` returns the new instance pointer or `none` for null;
`magic_error` returns the last-error text or `none` for null; the query
calls return the result string or `none` for null; the database operations
and `magic_setflags` return their C status code.  `errnoCode` and
`errnoText` are the process error number and its strerror rendering read
by the `errno` crate. -/
structure Ffi where
  magic_open : Nat → Option Nat
  magic_error : Nat → Option String
  magic_file : Nat → String → Option String
  magic_buffer : Nat → List Nat → Option String
  magic_setflags : Nat → Nat → Int
  magic_check : Nat → Option String → Int
  magic_compile : Nat → Option String → Int
  magic_list : Nat → Option String → Int
  magic_load : Nat → Option String → Int
  magic_load_buffers : Nat → List (List Nat) → Int
  errnoCode : Int
  errnoText : String

/-- `CString::new` fails exactly when the byte representation of the string
contains a nul byte; for UTF-8 that is exactly when the character U+0000
occurs. -/
def hasNul (s : String) : Bool := s.data.any (fun ch => ch == Char.ofNat 0)

/-- Description produced by `format!("\x7b:?\x7d", e)` on the `NulError`
returned by `CString::new`: the standard library's Debug rendering, which
reports the position of the first interior nul.  The exact text is owned
by the Rust standard library; it is modelled as this function of the
input.  The claims about it only use that it is produced locally, without
any native call. -/
def cstringNulDesc (s : String) : String :=
  "NulError " ++ toString (s.data.findIdx (fun ch => ch == Char.ofNat 0))

/-- Rendering of `format!("\x7b\x7d (\x7b\x7d)", e, e.0)` on the `errno`
value: the strerror text followed by the numeric code in parentheses. -/
def errnoDesc (n : Ffi) : String :=
  n.errnoText ++ " (" ++ toString n.errnoCode ++ ")"

/-- True exactly on the `error` constructor of `Except`. -/
def isErr {α : Type} : Except MagicError α → Bool
  | Except.error _ => true
  | Except.ok _ => false

namespace Cookie

/-- `Cookie::last_error`: reads `magic_error`; null means no error text. -/
def last_error (self : Cookie) (n : Ffi) : Option MagicError × List NativeCall :=
  match n.magic_error self.cookie with
  | none => (none, [NativeCall.magicErrorCall self.cookie])
  | some s => (some ⟨s⟩, [NativeCall.magicErrorCall self.cookie])

/-- `Cookie::magic_failure`: the last-error text when available, otherwise
the fixed description "unknown error". -/
def magic_failure (self : Cookie) (n : Ffi) : MagicError × List NativeCall :=
  match self.last_error n with
  | (some e, t) => (e, t)
  | (none, t) => (⟨"unknown error"⟩, t)

/-- `Cookie::file`: converts the filename to a C string (failing locally on
an interior nul), calls `magic_file`, and translates a null result through
`magic_failure`; a non-null result is copied out as an owned string. -/
def file (self : Cookie) (n : Ffi) (filename : String) :
    Except MagicError String × List NativeCall :=
  if hasNul filename then
    (Except.error ⟨cstringNulDesc filename⟩, [])
  else
    match n.magic_file self.cookie filename with
    | none =>
      let et := self.magic_failure n
      (Except.error et.1, NativeCall.magicFile self.cookie filename :: et.2)
    | some s => (Except.ok s, [NativeCall.magicFile self.cookie filename])

/-- `Cookie::buffer`: calls `magic_buffer` with the buffer pointer and its
length (modelled as the byte list) and translates a null result through
`magic_failure`. -/
def buffer (self : Cookie) (n : Ffi) (buf : List Nat) :
    Except MagicError String × List NativeCall :=
  match n.magic_buffer self.cookie buf with
  | none =>
    let et := self.magic_failure n
    (Except.error et.1, NativeCall.magicBuffer self.cookie buf :: et.2)
  | some s => (Except.ok s, [NativeCall.magicBuffer self.cookie buf])

/-- `Cookie::set_flags`: passes `flags.bits()` to `magic_setflags` and
returns the bare boolean `rv != -1`; no error value is constructed. -/
def set_flags (self : Cookie) (n : Ffi) (flags : Nat) :
    Bool × List NativeCall :=
  (n.magic_setflags self.cookie flags != -1,
   [NativeCall.magicSetflags self.cookie flags])

/-- `Cookie::check`: an empty filename list passes the null pointer;
otherwise the names are joined with ":" and converted to a C string
(failing locally on an interior nul) before `magic_check` is called;
status 0 is success, anything else is translated through `magic_failure`. -/
def check (self : Cookie) (n : Ffi) (filenames : List String) :
    Except MagicError Unit × List NativeCall :=
  if filenames.length = 0 then
    if n.magic_check self.cookie none = 0 then
      (Except.ok (), [NativeCall.magicCheck self.cookie none])
    else
      let et := self.magic_failure n
      (Except.error et.1, NativeCall.magicCheck self.cookie none :: et.2)
  else
    let joined := String.intercalate ":" filenames
    if hasNul joined then
      (Except.error ⟨cstringNulDesc joined⟩, [])
    else if n.magic_check self.cookie (some joined) = 0 then
      (Except.ok (), [NativeCall.magicCheck self.cookie (some joined)])
    else
      let et := self.magic_failure n
      (Except.error et.1, NativeCall.magicCheck self.cookie (some joined) :: et.2)

/-- `Cookie::compile`: same shape as `check`, calling `magic_compile`
(the duplication mirrors the source, which repeats the join logic). -/
def compile (self : Cookie) (n : Ffi) (filenames : List String) :
    Except MagicError Unit × List NativeCall :=
  if filenames.length = 0 then
    if n.magic_compile self.cookie none = 0 then
      (Except.ok (), [NativeCall.magicCompile self.cookie none])
    else
      let et := self.magic_failure n
      (Except.error et.1, NativeCall.magicCompile self.cookie none :: et.2)
  else
    let joined := String.intercalate ":" filenames
    if hasNul joined then
      (Except.error ⟨cstringNulDesc joined⟩, [])
    else if n.magic_compile self.cookie (some joined) = 0 then
      (Except.ok (), [NativeCall.magicCompile self.cookie (some joined)])
    else
      let et := self.magic_failure n
      (Except.error et.1, NativeCall.magicCompile self.cookie (some joined) :: et.2)

/-- `Cookie::list`: same shape as `check`, calling `magic_list`. -/
def list (self : Cookie) (n : Ffi) (filenames : List String) :
    Except MagicError Unit × List NativeCall :=
  if filenames.length = 0 then
    if n.magic_list self.cookie none = 0 then
      (Except.ok (), [NativeCall.magicList self.cookie none])
    else
      let et := self.magic_failure n
      (Except.error et.1, NativeCall.magicList self.cookie none :: et.2)
  else
    let joined := String.intercalate ":" filenames
    if hasNul joined then
      (Except.error ⟨cstringNulDesc joined⟩, [])
    else if n.magic_list self.cookie (some joined) = 0 then
      (Except.ok (), [NativeCall.magicList self.cookie (some joined)])
    else
      let et := self.magic_failure n
      (Except.error et.1, NativeCall.magicList self.cookie (some joined) :: et.2)

/-- `Cookie::load`: same shape as `check`, calling `magic_load`. -/
def load (self : Cookie) (n : Ffi) (filenames : List String) :
    Except MagicError Unit × List NativeCall :=
  if filenames.length = 0 then
    if n.magic_load self.cookie none = 0 then
      (Except.ok (), [NativeCall.magicLoad self.cookie none])
    else
      let et := self.magic_failure n
      (Except.error et.1, NativeCall.magicLoad self.cookie none :: et.2)
  else
    let joined := String.intercalate ":" filenames
    if hasNul joined then
      (Except.error ⟨cstringNulDesc joined⟩, [])
    else if n.magic_load self.cookie (some joined) = 0 then
      (Except.ok (), [NativeCall.magicLoad self.cookie (some joined)])
    else
      let et := self.magic_failure n
      (Except.error et.1, NativeCall.magicLoad self.cookie (some joined) :: et.2)

/-- `Cookie::load_buffers`: passes the buffer pointer array, size array and
count (modelled as the list of byte lists) to `magic_load_buffers`; status
0 is success, otherwise the error is built by `magic_failure`. -/
def load_buffers (self : Cookie) (n : Ffi) (buffers : List (List Nat)) :
    Except MagicError Unit × List NativeCall :=
  if n.magic_load_buffers self.cookie buffers = 0 then
    (Except.ok (), [NativeCall.magicLoadBuffers self.cookie buffers])
  else
    let et := self.magic_failure n
    (Except.error et.1, NativeCall.magicLoadBuffers self.cookie buffers :: et.2)

/-- `Cookie::open` (the Rust name `open` is a Lean keyword): calls
`magic_open` with `(flags | ERROR).bits()`; a null result yields an error
whose description renders `errno()` with its numeric code; a non-null
result is wrapped into a `Cookie`. -/
def open' (n : Ffi) (flags : Nat) : Except MagicError Cookie × List NativeCall :=
  match n.magic_open (flags ||| CookieFlags.ERROR) with
  | none =>
    (Except.error ⟨errnoDesc n⟩,
     [NativeCall.magicOpen (flags ||| CookieFlags.ERROR)])
  | some p =>
    (Except.ok ⟨p⟩, [NativeCall.magicOpen (flags ||| CookieFlags.ERROR)])

/-- `Cookie::new`: `open` then `load`.  On load failure the `cookie` local
goes out of scope with the error, so `Drop` runs `magic_close` on it
before the error is returned; on success the cookie is moved out and not
dropped. -/
def new (n : Ffi) (flags : Nat) (filenames : List String) :
    Except MagicError Cookie × List NativeCall :=
  match Cookie.open' n flags with
  | (Except.error e, t) => (Except.error e, t)
  | (Except.ok c, t) =>
    match c.load n filenames with
    | (Except.ok _, t2) => (Except.ok c, t ++ t2)
    | (Except.error e, t2) =>
      (Except.error e, t ++ t2 ++ [NativeCall.magicClose c.cookie])

/-- `Cookie::new_from_buffers`: `open` then `load_buffers`, with the same
drop-on-failure behavior as `new`. -/
def new_from_buffers (n : Ffi) (flags : Nat) (buffers : List (List Nat)) :
    Except MagicError Cookie × List NativeCall :=
  match Cookie.open' n flags with
  | (Except.error e, t) => (Except.error e, t)
  | (Except.ok c, t) =>
    match c.load_buffers n buffers with
    | (Except.ok _, t2) => (Except.ok c, t ++ t2)
    | (Except.error e, t2) =>
      (Except.error e, t ++ t2 ++ [NativeCall.magicClose c.cookie])

end Cookie

/-- True on the `magicClose` trace events. -/
def isClose : NativeCall → Bool
  | NativeCall.magicClose _ => true
  | _ => false

/-- Number of `magic_close` calls in a trace. -/
def closeCount (t : List NativeCall) : Nat := (t.filter isClose).length

/-- Number of `magic_close` calls on the given pointer in a trace. -/
def closesOf (p : Nat) (t : List NativeCall) : Nat :=
  (t.filter (fun x => x == NativeCall.magicClose p)).length

/-- Engine-side active flag word determined by a trace of native calls:
`magic_open` installs its flag argument, and `magic_setflags` overwrites
the active flags entirely (the source documents `set_flags` as
"Overwrites any previously set flags"); other calls leave it unchanged. -/
def engineFlags : Option Nat → List NativeCall → Option Nat
  | cur, [] => cur
  | _, NativeCall.magicOpen f :: rest => engineFlags (some f) rest
  | _, NativeCall.magicSetflags _ f :: rest => engineFlags (some f) rest
  | cur, _ :: rest => engineFlags cur rest

/-! ## Concrete oracles used to instantiate the theorems -/

/-- An engine on which every native call succeeds. -/
def ffiOk : Ffi where
  magic_open := fun _ => some 7
  magic_error := fun _ => some "bad magic"
  magic_file := fun _ _ => some "PNG image data"
  magic_buffer := fun _ _ => some "ASCII text"
  magic_setflags := fun _ _ => 0
  magic_check := fun _ _ => 0
  magic_compile := fun _ _ => 0
  magic_list := fun _ _ => 0
  magic_load := fun _ _ => 0
  magic_load_buffers := fun _ _ => 0
  errnoCode := 0
  errnoText := "Success"

/-- An engine whose allocation call returns null, with errno 12 (ENOMEM). -/
def ffiOpenFail : Ffi where
  magic_open := fun _ => none
  magic_error := fun _ => none
  magic_file := fun _ _ => none
  magic_buffer := fun _ _ => none
  magic_setflags := fun _ _ => -1
  magic_check := fun _ _ => -1
  magic_compile := fun _ _ => -1
  magic_list := fun _ _ => -1
  magic_load := fun _ _ => -1
  magic_load_buffers := fun _ _ => -1
  errnoCode := 12
  errnoText := "Cannot allocate memory"

/-- An engine on which allocation succeeds (pointer 3) but every database
operation fails with status 1 and no last-error text is available. -/
def ffiLoadFail : Ffi where
  magic_open := fun _ => some 3
  magic_error := fun _ => none
  magic_file := fun _ _ => none
  magic_buffer := fun _ _ => none
  magic_setflags := fun _ _ => 0
  magic_check := fun _ _ => 1
  magic_compile := fun _ _ => 1
  magic_list := fun _ _ => 1
  magic_load := fun _ _ => 1
  magic_load_buffers := fun _ _ => 1
  errnoCode := 0
  errnoText := "Success"

/-- An engine on which queries return null and a last-error text is
available. -/
def ffiQueryFail : Ffi where
  magic_open := fun _ => some 7
  magic_error := fun _ => some "query failed"
  magic_file := fun _ _ => none
  magic_buffer := fun _ _ => none
  magic_setflags := fun _ _ => 0
  magic_check := fun _ _ => 0
  magic_compile := fun _ _ => 0
  magic_list := fun _ _ => 0
  magic_load := fun _ _ => 0
  magic_load_buffers := fun _ _ => 0
  errnoCode := 0
  errnoText := "Success"

/-! ## Helper lemmas -/

/-- The trace of `magic_failure` is the single `magic_error` read. -/
theorem magic_failure_trace (c : Cookie) (n : Ffi) :
    (Cookie.magic_failure c n).2 = [NativeCall.magicErrorCall c.cookie] := by
  unfold Cookie.magic_failure Cookie.last_error
  cases n.magic_error c.cookie <;> simp

/-- `closeCount` adds over trace concatenation. -/
theorem closeCount_append (a b : List NativeCall) :
    closeCount (a ++ b) = closeCount a + closeCount b := by
  simp [closeCount, List.filter_append]

/-- A `load` never closes the handle. -/
theorem closeCount_load (c : Cookie) (n : Ffi) (fnames : List String) :
    closeCount (Cookie.load c n fnames).2 = 0 := by
  by_cases h1 : fnames.length = 0
  · by_cases h2 : n.magic_load c.cookie none = 0 <;>
      simp [Cookie.load, h1, h2, closeCount, magic_failure_trace, isClose]
  · by_cases h2 : hasNul (String.intercalate ":" fnames) = true
    · simp [Cookie.load, h1, h2, closeCount]
    · by_cases h3 : n.magic_load c.cookie (some (String.intercalate ":" fnames)) = 0 <;>
        simp [Cookie.load, h1, h2, h3, closeCount, magic_failure_trace, isClose]

/-- A `load_buffers` never closes the handle. -/
theorem closeCount_load_buffers (c : Cookie) (n : Ffi) (bufs : List (List Nat)) :
    closeCount (Cookie.load_buffers c n bufs).2 = 0 := by
  unfold Cookie.load_buffers
  split <;> simp [closeCount, magic_failure_trace, isClose]

/-! ## Claim theorems -/

/-- Claim C5: every named configuration flag has exactly the bit value
listed in the specification table. -/
theorem c5_flag_values :
    CookieFlags.NONE = 0x0 ∧
    CookieFlags.DEBUG = 0x1 ∧
    CookieFlags.SYMLINK = 0x2 ∧
    CookieFlags.COMPRESS = 0x4 ∧
    CookieFlags.DEVICES = 0x8 ∧
    CookieFlags.MIME_TYPE = 0x10 ∧
    CookieFlags.CONTINUE = 0x20 ∧
    CookieFlags.CHECK = 0x40 ∧
    CookieFlags.PRESERVE_ATIME = 0x80 ∧
    CookieFlags.RAW = 0x100 ∧
    CookieFlags.ERROR = 0x200 ∧
    CookieFlags.MIME_ENCODING = 0x400 ∧
    CookieFlags.APPLE = 0x800 ∧
    CookieFlags.NO_CHECK_COMPRESS = 0x1000 ∧
    CookieFlags.NO_CHECK_TAR = 0x2000 ∧
    CookieFlags.NO_CHECK_SOFT = 0x4000 ∧
    CookieFlags.NO_CHECK_APPTYPE = 0x8000 ∧
    CookieFlags.NO_CHECK_ELF = 0x10000 ∧
    CookieFlags.NO_CHECK_TEXT = 0x20000 ∧
    CookieFlags.NO_CHECK_CDF = 0x40000 ∧
    CookieFlags.NO_CHECK_TOKENS = 0x100000 ∧
    CookieFlags.NO_CHECK_ENCODING = 0x200000 ∧
    CookieFlags.NO_CHECK_JSON = 0x400000 ∧
    CookieFlags.EXTENSION = 0x1000000 ∧
    CookieFlags.COMPRESS_TRANSP = 0x2000000 := by
  decide

/-- Claim C6: the composite flags are, bit for bit, the OR of their
documented primitive constituents (`MIME`, `NODESC`, and the nine-way
`NO_CHECK_BUILTIN`, which excludes `NO_CHECK_SOFT`), with the resulting
concrete words spelled out, and the bitflags membership test accepts each
constituent of a composite. -/
theorem c6_composite_flags :
    CookieFlags.MIME = (CookieFlags.MIME_TYPE ||| CookieFlags.MIME_ENCODING) ∧
    CookieFlags.MIME = 0x410 ∧
    CookieFlags.NODESC =
      (CookieFlags.EXTENSION ||| CookieFlags.MIME ||| CookieFlags.APPLE) ∧
    CookieFlags.NODESC = 0x1000C10 ∧
    CookieFlags.NO_CHECK_BUILTIN =
      (CookieFlags.NO_CHECK_COMPRESS ||| CookieFlags.NO_CHECK_TAR |||
       CookieFlags.NO_CHECK_APPTYPE ||| CookieFlags.NO_CHECK_ELF |||
       CookieFlags.NO_CHECK_TEXT ||| CookieFlags.NO_CHECK_CDF |||
       CookieFlags.NO_CHECK_TOKENS ||| CookieFlags.NO_CHECK_ENCODING |||
       CookieFlags.NO_CHECK_JSON) ∧
    CookieFlags.NO_CHECK_BUILTIN = 0x77B000 ∧
    CookieFlags.NO_CHECK_BUILTIN &&& CookieFlags.NO_CHECK_SOFT = 0 ∧
    CookieFlags.contains CookieFlags.MIME CookieFlags.MIME_TYPE = true ∧
    CookieFlags.contains CookieFlags.MIME CookieFlags.MIME_ENCODING = true ∧
    CookieFlags.contains CookieFlags.NODESC CookieFlags.EXTENSION = true ∧
    CookieFlags.contains CookieFlags.NODESC CookieFlags.MIME = true ∧
    CookieFlags.contains CookieFlags.NODESC CookieFlags.APPLE = true ∧
    CookieFlags.contains CookieFlags.NO_CHECK_BUILTIN CookieFlags.NO_CHECK_COMPRESS = true ∧
    CookieFlags.contains CookieFlags.NO_CHECK_BUILTIN CookieFlags.NO_CHECK_TAR = true ∧
    CookieFlags.contains CookieFlags.NO_CHECK_BUILTIN CookieFlags.NO_CHECK_APPTYPE = true ∧
    CookieFlags.contains CookieFlags.NO_CHECK_BUILTIN CookieFlags.NO_CHECK_ELF = true ∧
    CookieFlags.contains CookieFlags.NO_CHECK_BUILTIN CookieFlags.NO_CHECK_TEXT = true ∧
    CookieFlags.contains CookieFlags.NO_CHECK_BUILTIN CookieFlags.NO_CHECK_CDF = true ∧
    CookieFlags.contains CookieFlags.NO_CHECK_BUILTIN CookieFlags.NO_CHECK_TOKENS = true ∧
    CookieFlags.contains CookieFlags.NO_CHECK_BUILTIN CookieFlags.NO_CHECK_ENCODING = true ∧
    CookieFlags.contains CookieFlags.NO_CHECK_BUILTIN CookieFlags.NO_CHECK_JSON = true := by
  decide

/-- Claim C1: `open` passes exactly the bitmask `flags OR ERROR` to the
native allocation call (and nothing else); on a null result it fails with
an error rendering the process error text together with its numeric code;
on a non-null result it returns a handle wrapping that pointer. -/
theorem c1_open_allocation (n : Ffi) (f : Nat) :
    (Cookie.open' n f).2 = [NativeCall.magicOpen (f ||| CookieFlags.ERROR)] ∧
    (n.magic_open (f ||| CookieFlags.ERROR) = none →
      (Cookie.open' n f).1 =
        Except.error ⟨n.errnoText ++ " (" ++ toString n.errnoCode ++ ")"⟩) ∧
    (∀ p, n.magic_open (f ||| CookieFlags.ERROR) = some p →
      (Cookie.open' n f).1 = Except.ok ⟨p⟩) := by
  unfold Cookie.open'
  refine ⟨?_, ?_, ?_⟩
  · cases h : n.magic_open (f ||| CookieFlags.ERROR) <;> simp [h]
  · intro h
    simp [h, errnoDesc]
  · intro p h
    simp [h]

/-- Witness for C1 at concrete inputs: flags 5, an engine whose allocation
returns null with errno 12. -/
theorem c1_open_allocation_witness :
    (Cookie.open' ffiOpenFail 5).1 =
      Except.error ⟨"Cannot allocate memory (12)"⟩ ∧
    (Cookie.open' ffiOpenFail 5).2 = [NativeCall.magicOpen 0x205] := by
  have h := c1_open_allocation ffiOpenFail 5
  refine ⟨?_, ?_⟩
  · rw [h.2.1 rfl]
    rfl
  · rw [h.1]
    rfl

/-- Claim C8: `set_flags` passes exactly the caller-supplied flag word to
the native call, returns a bare boolean that is true exactly when the
native call does not return -1, and constructs no error value. -/
theorem c8_set_flags_boolean (c : Cookie) (n : Ffi) (f : Nat) :
    ((Cookie.set_flags c n f).1 = true ↔ n.magic_setflags c.cookie f ≠ -1) ∧
    (Cookie.set_flags c n f).2 = [NativeCall.magicSetflags c.cookie f] := by
  unfold Cookie.set_flags
  constructor
  · simp
  · rfl

/-- Witness for C8 at concrete inputs: on an engine returning -1 the result
is `false`; on an engine returning 0 it is `true`. -/
theorem c8_set_flags_boolean_witness :
    (Cookie.set_flags ⟨3⟩ ffiOpenFail 0x10).1 = false ∧
    (Cookie.set_flags ⟨3⟩ ffiOk 0x10).1 = true := by
  have h1 := (c8_set_flags_boolean ⟨3⟩ ffiOpenFail 0x10).1
  have h2 := (c8_set_flags_boolean ⟨3⟩ ffiOk 0x10).1
  constructor
  · by_contra hc
    simp only [Bool.not_eq_false] at hc
    exact (h1.mp hc) rfl
  · exact h2.mpr (by decide)

/-- Claim C7: a path containing an embedded nul byte makes `file` fail
locally: the result is an error and the trace is empty (no native call at
all, in particular no truncated query). -/
theorem c7_nul_path_rejected (c : Cookie) (n : Ffi) (fname : String)
    (h : hasNul fname = true) :
    isErr (Cookie.file c n fname).1 = true ∧ (Cookie.file c n fname).2 = [] := by
  unfold Cookie.file
  simp [h, isErr]

/-- Witness for C7 at the concrete path "a\x00b" (nul between two letters)
on an engine whose queries would succeed. -/
theorem c7_nul_path_rejected_witness :
    isErr (Cookie.file ⟨7⟩ ffiOk "a\x00b").1 = true ∧
    (Cookie.file ⟨7⟩ ffiOk "a\x00b").2 = [] :=
  c7_nul_path_rejected ⟨7⟩ ffiOk "a\x00b" (by decide)

/-- Claim C2: for each database operation (`check`, `compile`, `list`,
`load`), an empty source list passes the null `dbs` argument to the
native call (and the empty list is not itself an error: the result is
success exactly when the native status is 0), while a non-empty list is
joined with ":" into the single native argument string. -/
theorem c2_source_list_join (c : Cookie) (n : Ffi) (fnames : List String) :
    (fnames = [] →
      (Cookie.check c n fnames).2.head? = some (NativeCall.magicCheck c.cookie none) ∧
      (Cookie.compile c n fnames).2.head? = some (NativeCall.magicCompile c.cookie none) ∧
      (Cookie.list c n fnames).2.head? = some (NativeCall.magicList c.cookie none) ∧
      (Cookie.load c n fnames).2.head? = some (NativeCall.magicLoad c.cookie none) ∧
      ((Cookie.check c n fnames).1 = Except.ok () ↔ n.magic_check c.cookie none = 0) ∧
      ((Cookie.compile c n fnames).1 = Except.ok () ↔ n.magic_compile c.cookie none = 0) ∧
      ((Cookie.list c n fnames).1 = Except.ok () ↔ n.magic_list c.cookie none = 0) ∧
      ((Cookie.load c n fnames).1 = Except.ok () ↔ n.magic_load c.cookie none = 0)) ∧
    (fnames ≠ [] → hasNul (String.intercalate ":" fnames) = false →
      (Cookie.check c n fnames).2.head? =
        some (NativeCall.magicCheck c.cookie (some (String.intercalate ":" fnames))) ∧
      (Cookie.compile c n fnames).2.head? =
        some (NativeCall.magicCompile c.cookie (some (String.intercalate ":" fnames))) ∧
      (Cookie.list c n fnames).2.head? =
        some (NativeCall.magicList c.cookie (some (String.intercalate ":" fnames))) ∧
      (Cookie.load c n fnames).2.head? =
        some (NativeCall.magicLoad c.cookie (some (String.intercalate ":" fnames)))) := by
  constructor
  · rintro rfl
    refine ⟨?_, ?_, ?_, ?_, ?_, ?_, ?_, ?_⟩
    · by_cases h : n.magic_check c.cookie none = 0 <;> simp [Cookie.check, h]
    · by_cases h : n.magic_compile c.cookie none = 0 <;> simp [Cookie.compile, h]
    · by_cases h : n.magic_list c.cookie none = 0 <;> simp [Cookie.list, h]
    · by_cases h : n.magic_load c.cookie none = 0 <;> simp [Cookie.load, h]
    · by_cases h : n.magic_check c.cookie none = 0 <;> simp [Cookie.check, h]
    · by_cases h : n.magic_compile c.cookie none = 0 <;> simp [Cookie.compile, h]
    · by_cases h : n.magic_list c.cookie none = 0 <;> simp [Cookie.list, h]
    · by_cases h : n.magic_load c.cookie none = 0 <;> simp [Cookie.load, h]
  · intro hne hnul
    have hl : ¬ fnames.length = 0 := by simpa [List.length_eq_zero] using hne
    refine ⟨?_, ?_, ?_, ?_⟩
    · by_cases h : n.magic_check c.cookie (some (String.intercalate ":" fnames)) = 0 <;>
        simp [Cookie.check, hl, hnul, h]
    · by_cases h : n.magic_compile c.cookie (some (String.intercalate ":" fnames)) = 0 <;>
        simp [Cookie.compile, hl, hnul, h]
    · by_cases h : n.magic_list c.cookie (some (String.intercalate ":" fnames)) = 0 <;>
        simp [Cookie.list, hl, hnul, h]
    · by_cases h : n.magic_load c.cookie (some (String.intercalate ":" fnames)) = 0 <;>
        simp [Cookie.load, hl, hnul, h]

/-- Witness for C2 at concrete inputs: the list ["db1", "db2"] reaches the
native call as the single string "db1:db2", and the empty list reaches it
as the null argument. -/
theorem c2_source_list_join_witness :
    (Cookie.check ⟨7⟩ ffiOk ["db1", "db2"]).2.head? =
      some (NativeCall.magicCheck 7 (some "db1:db2")) ∧
    (Cookie.load ⟨7⟩ ffiOk []).2.head? = some (NativeCall.magicLoad 7 none) := by
  have h1 := (c2_source_list_join ⟨7⟩ ffiOk ["db1", "db2"]).2 (by simp) (by decide)
  have h2 := (c2_source_list_join ⟨7⟩ ffiOk []).1 rfl
  constructor
  · rw [h1.1]
    rfl
  · exact h2.2.2.2.1

/-- Claim C3: when `magic_file`/`magic_buffer` return null, `file` and
`buffer` fail with the engine's last-error text when available and with
the fixed description "unknown error" otherwise; when the native call
returns a non-null string, they return it as a success. -/
theorem c3_query_null_result (c : Cookie) (n : Ffi) (fname : String) (buf : List Nat)
    (hnul : hasNul fname = false) :
    (n.magic_file c.cookie fname = none →
      (Cookie.file c n fname).1 = Except.error
        (match n.magic_error c.cookie with
          | some s => MagicError.mk s
          | none => MagicError.mk "unknown error")) ∧
    (∀ s, n.magic_file c.cookie fname = some s →
      (Cookie.file c n fname).1 = Except.ok s) ∧
    (n.magic_buffer c.cookie buf = none →
      (Cookie.buffer c n buf).1 = Except.error
        (match n.magic_error c.cookie with
          | some s => MagicError.mk s
          | none => MagicError.mk "unknown error")) ∧
    (∀ s, n.magic_buffer c.cookie buf = some s →
      (Cookie.buffer c n buf).1 = Except.ok s) := by
  refine ⟨?_, ?_, ?_, ?_⟩
  · intro h
    cases he : n.magic_error c.cookie <;>
      simp [Cookie.file, hnul, h, Cookie.magic_failure, Cookie.last_error, he]
  · intro s h
    simp [Cookie.file, hnul, h]
  · intro h
    cases he : n.magic_error c.cookie <;>
      simp [Cookie.buffer, h, Cookie.magic_failure, Cookie.last_error, he]
  · intro s h
    simp [Cookie.buffer, h]

/-- Witness for C3 at concrete inputs: a failing query with error text
available, a failing query with no error text (fallback "unknown error"),
and a succeeding query. -/
theorem c3_query_null_result_witness :
    (Cookie.file ⟨7⟩ ffiQueryFail "f.png").1 = Except.error ⟨"query failed"⟩ ∧
    (Cookie.buffer ⟨3⟩ ffiLoadFail [1, 2]).1 = Except.error ⟨"unknown error"⟩ ∧
    (Cookie.file ⟨7⟩ ffiOk "f.png").1 = Except.ok "PNG image data" := by
  refine ⟨?_, ?_, ?_⟩
  · rw [(c3_query_null_result ⟨7⟩ ffiQueryFail "f.png" [] (by decide)).1 rfl]
    rfl
  · rw [(c3_query_null_result ⟨3⟩ ffiLoadFail "x" [1, 2] (by decide)).2.2.1 rfl]
    rfl
  · exact (c3_query_null_result ⟨7⟩ ffiOk "f.png" [] (by decide)).2.1 "PNG image data" rfl

/-- Claim C10: nul rejection is not limited to `file`: a non-empty source
list whose colon-joined string contains a nul byte makes each of `check`,
`compile`, `list` and `load` fail locally with an empty native-call
trace. -/
theorem c10_nul_sources_rejected (c : Cookie) (n : Ffi) (fnames : List String)
    (hne : fnames ≠ []) (h : hasNul (String.intercalate ":" fnames) = true) :
    (isErr (Cookie.check c n fnames).1 = true ∧ (Cookie.check c n fnames).2 = []) ∧
    (isErr (Cookie.compile c n fnames).1 = true ∧ (Cookie.compile c n fnames).2 = []) ∧
    (isErr (Cookie.list c n fnames).1 = true ∧ (Cookie.list c n fnames).2 = []) ∧
    (isErr (Cookie.load c n fnames).1 = true ∧ (Cookie.load c n fnames).2 = []) := by
  have hl : ¬ fnames.length = 0 := by simpa [List.length_eq_zero] using hne
  refine ⟨⟨?_, ?_⟩, ⟨?_, ?_⟩, ⟨?_, ?_⟩, ⟨?_, ?_⟩⟩ <;>
    simp [Cookie.check, Cookie.compile, Cookie.list, Cookie.load, hl, h, isErr]

/-- Witness for C10 at the concrete source list ["a\x00b"], whose join
contains a nul, on an engine whose database calls would succeed. -/
theorem c10_nul_sources_rejected_witness :
    isErr (Cookie.load ⟨7⟩ ffiOk ["a\x00b"]).1 = true ∧
    (Cookie.load ⟨7⟩ ffiOk ["a\x00b"]).2 = [] ∧
    isErr (Cookie.check ⟨7⟩ ffiOk ["a\x00b"]).1 = true ∧
    (Cookie.check ⟨7⟩ ffiOk ["a\x00b"]).2 = [] := by
  have h := c10_nul_sources_rejected ⟨7⟩ ffiOk ["a\x00b"] (by simp) (by decide)
  exact ⟨h.2.2.2.1, h.2.2.2.2, h.1.1, h.1.2⟩

/-- Claim C4: when `open` succeeds at pointer `p` but the load step fails,
`new` (and `new_from_buffers`) returns the load error and the native
handle is released exactly once — the trace ends in the single
`magic_close p`, placed before the return.  Moreover no exit path leaks:
a successful construction closes nothing (the handle is moved to the
caller), and a failed `open` has nothing to close. -/
theorem c4_release_on_failed_construction (n : Ffi) (f : Nat) (p : Nat)
    (fnames : List String) (bufs : List (List Nat))
    (hopen : n.magic_open (f ||| CookieFlags.ERROR) = some p)
    (hload : isErr (Cookie.load ⟨p⟩ n fnames).1 = true)
    (hloadb : isErr (Cookie.load_buffers ⟨p⟩ n bufs).1 = true) :
    isErr (Cookie.new n f fnames).1 = true ∧
    (Cookie.new n f fnames).2 =
      NativeCall.magicOpen (f ||| CookieFlags.ERROR) ::
        ((Cookie.load ⟨p⟩ n fnames).2 ++ [NativeCall.magicClose p]) ∧
    closeCount (Cookie.new n f fnames).2 = 1 ∧
    isErr (Cookie.new_from_buffers n f bufs).1 = true ∧
    (Cookie.new_from_buffers n f bufs).2 =
      NativeCall.magicOpen (f ||| CookieFlags.ERROR) ::
        ((Cookie.load_buffers ⟨p⟩ n bufs).2 ++ [NativeCall.magicClose p]) ∧
    closeCount (Cookie.new_from_buffers n f bufs).2 = 1 ∧
    (∀ g gnames, isErr (Cookie.new n g gnames).1 = false →
      closeCount (Cookie.new n g gnames).2 = 0) ∧
    (∀ g gnames, n.magic_open (g ||| CookieFlags.ERROR) = none →
      (Cookie.new n g gnames).2 = [NativeCall.magicOpen (g ||| CookieFlags.ERROR)]) := by
  have hc2 : closeCount (Cookie.load ⟨p⟩ n fnames).2 = 0 := closeCount_load ⟨p⟩ n fnames
  have hcb : closeCount (Cookie.load_buffers ⟨p⟩ n bufs).2 = 0 :=
    closeCount_load_buffers ⟨p⟩ n bufs
  rcases hl : Cookie.load ⟨p⟩ n fnames with ⟨r, t2⟩
  rcases hlb : Cookie.load_buffers ⟨p⟩ n bufs with ⟨rb, tb⟩
  rw [hl] at hload hc2
  rw [hlb] at hloadb hcb
  cases r with
  | ok u => simp [isErr] at hload
  | error e =>
    cases rb with
    | ok u => simp [isErr] at hloadb
    | error eb =>
      have ht : Cookie.new n f fnames =
          (Except.error e,
           NativeCall.magicOpen (f ||| CookieFlags.ERROR) ::
             (t2 ++ [NativeCall.magicClose p])) := by
        simp [Cookie.new, Cookie.open', hopen, hl]
      have htb : Cookie.new_from_buffers n f bufs =
          (Except.error eb,
           NativeCall.magicOpen (f ||| CookieFlags.ERROR) ::
             (tb ++ [NativeCall.magicClose p])) := by
        simp [Cookie.new_from_buffers, Cookie.open', hopen, hlb]
      refine ⟨?_, ?_, ?_, ?_, ?_, ?_, ?_, ?_⟩
      · rw [ht]
        rfl
      · rw [ht]
      · rw [ht]
        simp only [closeCount, List.filter_append] at hc2 ⊢
        simp [isClose, hc2]
      · rw [htb]
        rfl
      · rw [htb]
      · rw [htb]
        simp only [closeCount, List.filter_append] at hcb ⊢
        simp [isClose, hcb]
      · intro g gnames hsucc
        cases ho : n.magic_open (g ||| CookieFlags.ERROR) with
        | none => simp [Cookie.new, Cookie.open', ho, isErr] at hsucc
        | some q =>
          have hcg : closeCount (Cookie.load ⟨q⟩ n gnames).2 = 0 :=
            closeCount_load ⟨q⟩ n gnames
          rcases hg : Cookie.load ⟨q⟩ n gnames with ⟨rg, tg⟩
          rw [hg] at hcg
          cases rg with
          | error eg => simp [Cookie.new, Cookie.open', ho, hg, isErr] at hsucc
          | ok ug =>
            simp only [closeCount] at hcg
            simp [Cookie.new, Cookie.open', ho, hg, closeCount,
              List.filter_append, isClose, hcg]
      · intro g gnames ho
        simp [Cookie.new, Cookie.open', ho]

/-- Witness for C4 at concrete inputs: an engine where allocation yields
pointer 3 and loading fails; construction returns an error and closes the
handle exactly once. -/
theorem c4_release_on_failed_construction_witness :
    isErr (Cookie.new ffiLoadFail 0 ["db"]).1 = true ∧
    closeCount (Cookie.new ffiLoadFail 0 ["db"]).2 = 1 ∧
    isErr (Cookie.new_from_buffers ffiLoadFail 0 [[1, 2]]).1 = true ∧
    closeCount (Cookie.new_from_buffers ffiLoadFail 0 [[1, 2]]).2 = 1 := by
  have h := c4_release_on_failed_construction ffiLoadFail 0 3 ["db"] [[1, 2]]
    rfl (by decide) (by decide)
  exact ⟨h.1, h.2.2.1, h.2.2.2.1, h.2.2.2.2.2.1⟩

/-- Claim C9: `set_flags` passes exactly the caller-supplied bits to the
native call, with no ERROR bit OR-ed in; so after a construction (whose
`magic_open` argument always has the ERROR bit set) a successful
`set_flags` with an ERROR-free word leaves the engine's active flags
without the ERROR bit (`magic_setflags` overwrites the previous flags). -/
theorem c9_set_flags_clears_error (n : Ffi) (f g p : Nat)
    (hopen : n.magic_open (f ||| CookieFlags.ERROR) = some p)
    (hg : g &&& CookieFlags.ERROR = 0)
    (hok : n.magic_setflags p g ≠ -1) :
    (Cookie.set_flags ⟨p⟩ n g).2 = [NativeCall.magicSetflags p g] ∧
    (Cookie.set_flags ⟨p⟩ n g).1 = true ∧
    engineFlags none (Cookie.open' n f).2 = some (f ||| CookieFlags.ERROR) ∧
    CookieFlags.contains (f ||| CookieFlags.ERROR) CookieFlags.ERROR = true ∧
    engineFlags none
      ((Cookie.open' n f).2 ++ (Cookie.set_flags ⟨p⟩ n g).2) = some g ∧
    CookieFlags.contains g CookieFlags.ERROR = false := by
  have habsorb : (f ||| CookieFlags.ERROR) &&& CookieFlags.ERROR = CookieFlags.ERROR := by
    apply Nat.eq_of_testBit_eq
    intro i
    simp only [Nat.testBit_land, Nat.testBit_lor]
    cases hb : Nat.testBit CookieFlags.ERROR i <;> simp
  refine ⟨rfl, ?_, ?_, ?_, ?_, ?_⟩
  · simp [Cookie.set_flags, hok]
  · simp [Cookie.open', hopen, engineFlags]
  · simp [CookieFlags.contains, habsorb]
  · simp [Cookie.open', hopen, Cookie.set_flags, engineFlags]
  · simp [CookieFlags.contains, hg]
    decide

/-- Witness for C9 at concrete inputs: flags NONE (ERROR bit clear) set
after an open on an engine that accepts them. -/
theorem c9_set_flags_clears_error_witness :
    engineFlags none
      ((Cookie.open' ffiOk 0).2 ++ (Cookie.set_flags ⟨7⟩ ffiOk 0).2) = some 0 ∧
    CookieFlags.contains 0 CookieFlags.ERROR = false := by
  have h := c9_set_flags_clears_error ffiOk 0 0 7 rfl (by decide) (by decide)
  exact ⟨h.2.2.2.2.1, h.2.2.2.2.2⟩

end Magic
